import Mathlib

/-!
Verification development for the Task Lifecycle & Temporal Scheduling
subsystem of `fmlib` (models/tasks.py, models/timetable.py, models/actions.py).

The Python source is shallowly embedded:
  * pymodm models become Lean structures; unset fields (`None`) are `Option`;
  * the MongoDB document store becomes an explicit `World` of association
    lists (one live and one archive list per collection), keyed by record id;
  * store unavailability (`ServerSelectionTimeoutError`) is a boolean
    `available` on the world; operations that would raise return `Except`;
  * timestamps are integer seconds; `timedelta(seconds=s)` is integer
    addition; durations (`FloatField`) are rationals.

Namespace `Fmlib` holds the typed embedding (records already conform to the
schema). Namespace `FmlibDep` holds the field-level embedding used by the
deprecation/schema-migration protocol, where a stored record is a list of
declared fields each of which may be missing, valid or invalid.
-/

namespace Fmlib

/-- Exceptions raised by the embedded operations: `ServerSelectionTimeoutError`
from pymongo, `DoesNotExist` and `ValidationError` from pymodm, and the Python
`IndexError` / `AttributeError` for out-of-range or `None` attribute access. -/
inductive PyErr where
  | serverTimeout
  | doesNotExist
  | validationError
  | indexError
  | attributeError
deriving DecidableEq

/-- Association-list lookup by record id, the embedding of a `get({'_id': k})`
query against one collection. -/
def lookupRec {α : Type} (k : Nat) : List (Nat × α) → Option α
  | [] => none
  | (k2, v) :: rest => if k2 = k then some v else lookupRec k rest

/-- Saving a document replaces the stored record with the same id, or appends
it (a MongoDB upsert by `_id`). -/
def upsert {α : Type} (k : Nat) (v : α) : List (Nat × α) → List (Nat × α)
  | [] => [(k, v)]
  | (k2, v2) :: rest => if k2 = k then (k, v) :: rest else (k2, v2) :: upsert k v rest

/-- Deleting a document removes every record with that id. -/
def removeKey {α : Type} (k : Nat) : List (Nat × α) → List (Nat × α)
  | [] => []
  | (k2, v2) :: rest => if k2 = k then removeKey k rest else (k2, v2) :: removeKey k rest

theorem lookupRec_upsert_self {α : Type} (k : Nat) (v : α) (l : List (Nat × α)) :
    lookupRec k (upsert k v l) = some v := by
  induction l with
  | nil => simp [upsert, lookupRec]
  | cons hd tl ih =>
    obtain ⟨k2, v2⟩ := hd
    by_cases h : k2 = k
    · simp [upsert, h, lookupRec]
    · simp [upsert, h, lookupRec, ih]

theorem lookupRec_removeKey_self {α : Type} (k : Nat) (l : List (Nat × α)) :
    lookupRec k (removeKey k l) = none := by
  induction l with
  | nil => simp [removeKey, lookupRec]
  | cons hd tl ih =>
    obtain ⟨k2, v2⟩ := hd
    by_cases h : k2 = k
    · simp [removeKey, h, ih]
    · simp [removeKey, h, lookupRec, ih]

/-- `List.find?` only depends on the pointwise behaviour of its predicate. -/
theorem find?_congr {α : Type} {p q : α → Bool} (h : ∀ a, p a = q a) :
    ∀ l : List α, l.find? p = l.find? q := by
  intro l
  induction l with
  | nil => rfl
  | cons hd tl ih =>
    simp only [List.find?]
    rw [h hd]
    cases q hd
    · exact ih
    · rfl

/-! ### Schedule graph query layer (models/timetable.py) -/

/-- The `data` tag of a dispatchable-graph node: `{"task_id": ..., "node_type": ...}`. -/
structure NodeData where
  task_id : String
  node_type : String
deriving DecidableEq

/-- A node of the dispatchable graph (`{"id": int, "data": {...}}`). -/
structure GraphNode where
  id : Nat
  data : NodeData
deriving DecidableEq

/-- A directed weighted edge of the dispatchable graph
(`{"source": int, "target": int, "weight": float}`); weights are modelled as
integer seconds. -/
structure GraphLink where
  source : Nat
  target : Nat
  weight : Int
deriving DecidableEq

/-- The dispatchable graph: node list plus link list, node `0` being the
zero-time reference. -/
structure DispatchableGraph where
  nodes : List GraphNode
  links : List GraphLink
deriving DecidableEq

/-- `Timetable` (models/timetable.py): per-robot schedule store. The opaque
`stn`/`stn_tasks` dictionaries and `solver_name` are not consulted by any
embedded operation and are omitted; `ztp` is an absolute timestamp in
seconds. -/
structure Timetable where
  robot_id : Nat
  ztp : Int
  dispatchable_graph : DispatchableGraph
deriving DecidableEq

/-- `Timetable.get_node_id`: the id of the first graph node whose data tag
matches `(task_id, node_type)`, if any. -/
def Timetable.get_node_id (tt : Timetable) (task_id node_type : String) : Option Nat :=
  (tt.dispatchable_graph.nodes.find? (fun node =>
    task_id == node.data.task_id && node_type == node.data.node_type)).map
    (fun node => node.id)

/-- `Timetable.get_time`: resolve the node, scan the links for the first edge
`(node_id, 0)` (lower bound, offset `-weight`) or `(0, node_id)` (upper bound,
offset `weight`), then — mirroring the source's `if time_:` truthiness test —
return `ztp + offset` only when an offset was found and it is nonzero.
A missing node makes `node_id` `None`, so no link matches (`int == None` is
false in Python, embedded as `some link.source == none`). -/
def Timetable.get_time (tt : Timetable) (task_id node_type : String)
    (lower_bound : Bool) : Option Int :=
  let node_id := tt.get_node_id task_id node_type
  let time_ : Option Int :=
    match tt.dispatchable_graph.links.find? (fun link =>
        (lower_bound && (some link.source == node_id) && (link.target == 0)) ||
        (!lower_bound && (link.source == 0) && (some link.target == node_id))) with
    | some link => some (if lower_bound then -link.weight else link.weight)
    | none => none
  match time_ with
  | some offset => if offset = 0 then none else some (tt.ztp + offset)
  | none => none

/-! ### Task data model (models/tasks.py, models/actions.py) -/

/-- The task lifecycle enumeration (`ropod.structs.status.TaskStatus`, an
external module of stable small integer tags; embedded as an inductive since
only fixed-set membership is ever tested). -/
inductive TaskStatusConst where
  | unallocated
  | allocated
  | planned
  | scheduled
  | dispatched
  | running
  | finished
  | canceled
  | aborted
  | failed
  | overdue
  | deprecated
deriving DecidableEq

/-- `TimepointConstraint`: earliest/latest absolute timestamps, unset on a
freshly constructed instance. -/
structure TimepointConstraint where
  earliest_time : Option Int
  latest_time : Option Int
deriving DecidableEq

/-- `TimepointConstraint()` with no kwargs leaves both timestamps unset. -/
def TimepointConstraint.new : TimepointConstraint := ⟨none, none⟩

/-- `TimepointConstraint.update` overwrites both bounds. -/
def TimepointConstraint.update (_tc : TimepointConstraint) (earliest_time latest_time : Int) :
    TimepointConstraint :=
  ⟨some earliest_time, some latest_time⟩

/-- `EstimatedDuration` (models/actions.py): mean/variance, both unset on a
freshly constructed instance (`FloatField` with no default). -/
structure EstimatedDuration where
  mean : Option ℚ
  variance : Option ℚ
deriving DecidableEq

/-- `EstimatedDuration()` with no kwargs leaves both fields unset. -/
def EstimatedDuration.new : EstimatedDuration := ⟨none, none⟩

/-- Modelled from the spec: the spec's phrase "a fresh zero-mean estimate"
(§4.1, `unassign_robots`) read literally, an estimate whose mean and variance
are zero. Compared against what the code actually constructs
(`EstimatedDuration.new`). -/
def EstimatedDuration.zero_mean : EstimatedDuration := ⟨some 0, some 0⟩

/-- `AlternativeTimeslot`: optional start/finish windows. -/
structure AlternativeTimeslot where
  start : Option TimepointConstraint
  finish : Option TimepointConstraint
deriving DecidableEq

/-- `TemporalConstraints`: start/finish windows, work/travel duration
estimates, optional alternative timeslot. -/
structure TemporalConstraints where
  start : Option TimepointConstraint
  finish : Option TimepointConstraint
  work_time : Option EstimatedDuration
  travel_time : Option EstimatedDuration
  alternative_timeslot : Option AlternativeTimeslot
deriving DecidableEq

/-- `TaskConstraints`: wrapper holding the temporal constraints. The typed
embedding keeps `temporal` non-optional: every task built by `create_new` /
`from_request` carries it. -/
structure TaskConstraints where
  temporal : TemporalConstraints
deriving DecidableEq

/-- `TaskPlan`: a plan stage; `robot` is blank until assignment. The ordered
action list is kept as opaque action ids. -/
structure TaskPlan where
  robot : Option String
  actions : List Nat
deriving DecidableEq

/-- `ActionProgress` (models/actions.py): per-action progress record; only the
identity is needed by the archival protocol. -/
structure ActionProgress where
  action_id : Nat
deriving DecidableEq

/-- `TaskProgress`: embedded action-progress tracker. -/
structure TaskProgress where
  current_action : Option Nat
  actions : List ActionProgress
deriving DecidableEq

/-- An `Action` document as stored in the action collections (opaque beyond
its identity for the archival protocol). -/
structure ActionRec where
  action_id : Nat
deriving DecidableEq

/-- `TaskStatus`: lifecycle state record owned by a task. -/
structure TaskStatus where
  task_id : Nat
  status : TaskStatusConst
  delayed : Bool
  early : Bool
  paused : Bool
  recovery_method : Option Nat
  progress : Option TaskProgress
deriving DecidableEq

/-- `TaskStatus(task_id=k)`: all other fields take their declared defaults
(`status` defaults to `UNALLOCATED`). -/
def TaskStatus.new (task_id : Nat) : TaskStatus :=
  ⟨task_id, .unallocated, false, false, false, none, none⟩

/-- `TaskStatus.archived_status`: the terminal set whose members trigger
archival. -/
def TaskStatus.archived_status : List TaskStatusConst :=
  [.finished, .canceled, .aborted, .failed, .overdue, .deprecated]

/-- `Schedule`: committed departure/start/finish timestamps. -/
structure Schedule where
  departure_time : Int
  start_time : Int
  finish_time : Int
deriving DecidableEq

/-- `Task`: the task aggregate. `request` is kept as an opaque reference (its
field-level content matters only to the deprecation layer, `FmlibDep`). -/
structure Task where
  task_id : Nat
  parent_task_id : Option Nat
  request : Option Nat
  status : Option TaskStatus
  assigned_robots : List String
  plan : List TaskPlan
  constraints : TaskConstraints
  schedule : Option Schedule
  eligible_robots : List String
  capable_robots : List String
  timeout_time : Option Int
deriving DecidableEq

/-- The document store: one live and one archive collection for tasks, task
statuses, action progresses and actions, plus a reachability flag (`false`
makes every raw store access raise `ServerSelectionTimeoutError`). -/
structure World where
  available : Bool
  taskLive : List (Nat × Task)
  taskArchive : List (Nat × Task)
  statusLive : List (Nat × TaskStatus)
  statusArchive : List (Nat × TaskStatus)
  apLive : List (Nat × ActionProgress)
  apArchive : List (Nat × ActionProgress)
  actionLive : List (Nat × ActionRec)
  actionArchive : List (Nat × ActionRec)
deriving DecidableEq

/-! ### Store operations -/

/-- `Action.get_action`: look the action up in the live collection, falling
back to the archive; the caller below catches `DoesNotExist`, so the miss is
an `Option`. -/
def ActionRec.get_action (action_id : Nat) (w : World) : Option ActionRec :=
  match lookupRec action_id w.actionLive with
  | some a => some a
  | none => lookupRec action_id w.actionArchive

/-- `Action.archive`: save the action into the archive collection and delete
the live copy. -/
def ActionRec.archive (a : ActionRec) (w : World) : Except PyErr World :=
  if w.available then
    .ok { w with actionArchive := upsert a.action_id a w.actionArchive,
                 actionLive := removeKey a.action_id w.actionLive }
  else .error .serverTimeout

/-- `ActionProgress.archive`: archive the corresponding action if it exists
(`DoesNotExist` is caught), then move the progress record to its archive
collection. -/
def ActionProgress.archive (ap : ActionProgress) (w : World) : Except PyErr World :=
  let moved : Except PyErr World :=
    match ActionRec.get_action ap.action_id w with
    | some a => a.archive w
    | none => .ok w
  match moved with
  | .error e => .error e
  | .ok w1 =>
    if w1.available then
      .ok { w1 with apArchive := upsert ap.action_id ap w1.apArchive,
                    apLive := removeKey ap.action_id w1.apLive }
    else .error .serverTimeout

/-- The loop in `TaskStatus.archive` over `self.progress.actions`, archiving
each progress record in order. The source guards each iteration with
`if action_progress != ActionStatus.FINISHED`, which compares an
`ActionProgress` object against an integer constant and therefore always
holds, so every record is archived. -/
def ActionProgress.archive_all (l : List ActionProgress) (w : World) : Except PyErr World :=
  match l with
  | [] => .ok w
  | ap :: rest =>
    match ap.archive w with
    | .ok w1 => archive_all rest w1
    | .error e => .error e

/-- `TaskStatus.save` (pymodm's save, not overridden): raises on an
unreachable store, otherwise upserts into the live status collection. -/
def TaskStatus.save (ts : TaskStatus) (w : World) : Except PyErr World :=
  if w.available then
    .ok { w with statusLive := upsert ts.task_id ts w.statusLive }
  else .error .serverTimeout

/-- `TaskStatus.create_new(task_id=k)`: build the status with default fields
and save it. -/
def TaskStatus.create_new (task_id : Nat) (w : World) : Except PyErr (TaskStatus × World) :=
  let ts := TaskStatus.new task_id
  match ts.save w with
  | .ok w1 => .ok (ts, w1)
  | .error e => .error e

/-- `TaskStatus.archive`: archive the progress records (see
`ActionProgress.archive_all`), then save the status into the archive
collection and delete the live copy. -/
def TaskStatus.archive (ts : TaskStatus) (w : World) : Except PyErr World :=
  let progressed : Except PyErr World :=
    match ts.progress with
    | some progress => ActionProgress.archive_all progress.actions w
    | none => .ok w
  match progressed with
  | .error e => .error e
  | .ok w1 =>
    if w1.available then
      .ok { w1 with statusArchive := upsert ts.task_id ts w1.statusArchive,
                    statusLive := removeKey ts.task_id w1.statusLive }
    else .error .serverTimeout

/-- The raw `super().save(cascade=True)` inside `Task.save`: raises on an
unreachable store, otherwise upserts into the live task collection. -/
def Task.saveRaw (t : Task) (w : World) : Except PyErr World :=
  if w.available then
    .ok { w with taskLive := upsert t.task_id t w.taskLive }
  else .error .serverTimeout

/-- `Task.save`: catches `ServerSelectionTimeoutError`, logs a warning and
returns normally, leaving the store (and the in-memory task, which this
function never touches) unchanged. -/
def Task.save (t : Task) (w : World) : World :=
  match t.saveRaw w with
  | .ok w1 => w1
  | .error _ => w

/-- `Task.archive`: save the task into the archive collection and delete the
live copy (raw saves — a timeout here propagates). -/
def Task.archive (t : Task) (w : World) : Except PyErr World :=
  if w.available then
    .ok { w with taskArchive := upsert t.task_id t w.taskArchive,
                 taskLive := removeKey t.task_id w.taskLive }
  else .error .serverTimeout

/-- `Task.update_status`: materialize a default status if absent, overwrite
its `status`, then either archive status and task (terminal states) or save
both. -/
def Task.update_status (t : Task) (status : TaskStatusConst) (w : World) :
    Except PyErr (Task × World) :=
  let st0 := match t.status with
    | some st => st
    | none => TaskStatus.new t.task_id
  let st := { st0 with status := status }
  let t1 := { t with status := some st }
  if status ∈ TaskStatus.archived_status then
    match st.archive w with
    | .ok w1 =>
      match t1.archive w1 with
      | .ok w2 => .ok (t1, w2)
      | .error e => .error e
    | .error e => .error e
  else
    match st.save w with
    | .ok w1 => .ok (t1, Task.save t1 w1)
    | .error e => .error e

/-- `Task.create_new`: the embedding takes the `task_id` and `plan` kwargs
explicitly and `now` for `TimeStamp()`; no `constraints` kwarg is given, so
the default constraints are built as in the source — start window
`[now, now + 10 minutes]`, freshly constructed (unset) work/travel time
estimates. A new `TaskStatus` is created and saved, then the task is saved
through the swallowing `Task.save`. -/
def Task.create_new (task_id : Nat) (now : Int) (plan : List TaskPlan) (w : World) :
    Except PyErr (Task × World) :=
  let start := TimepointConstraint.mk (some now) (some (now + 600))
  let temporal := TemporalConstraints.mk (some start) none
    (some EstimatedDuration.new) (some EstimatedDuration.new) none
  let constraints := TaskConstraints.mk temporal
  match TaskStatus.create_new task_id w with
  | .error e => .error e
  | .ok (st, w1) =>
    let t : Task :=
      ⟨task_id, none, none, some st, [], plan, constraints, none, [], [], none⟩
    .ok (t, Task.save t w1)

/-- `Task.assign_robots`: set `assigned_robots`, write the first robot into
the first plan stage (`self.plan[0].robot = robot_ids[0]` — an empty plan or
an empty robot list raises `IndexError`), then save and drive the status to
`ALLOCATED`. -/
def Task.assign_robots (t : Task) (robot_ids : List String) (save_in_db : Bool)
    (w : World) : Except PyErr (Task × World) :=
  let t1 := { t with assigned_robots := robot_ids }
  match t1.plan, robot_ids with
  | p0 :: rest, r0 :: _ =>
    let t2 := { t1 with plan := { p0 with robot := some r0 } :: rest }
    if save_in_db then
      Task.update_status t2 .allocated (Task.save t2 w)
    else .ok (t2, w)
  | _, _ => .error .indexError

/-- `Task.unassign_robots`: clear `assigned_robots`, replace `travel_time`
with a freshly constructed estimate (the `travel_time` setter saves), clear
the first plan stage's robot (`IndexError` on an empty plan), save again and
drive the status back to `UNALLOCATED`. -/
def Task.unassign_robots (t : Task) (w : World) : Except PyErr (Task × World) :=
  let t1 := { t with assigned_robots := [] }
  let t2 := { t1 with constraints := ⟨{ t1.constraints.temporal with
    travel_time := some EstimatedDuration.new }⟩ }
  let w1 := Task.save t2 w
  match t2.plan with
  | p0 :: rest =>
    let t3 := { t2 with plan := { p0 with robot := none } :: rest }
    Task.update_status t3 .unallocated (Task.save t3 w1)
  | [] => .error .indexError

/-- `Task.update_plan`: append the robot-independent plan stage, drive the
status to `PLANNED`, save. -/
def Task.update_plan (t : Task) (task_plan : TaskPlan) (w : World) :
    Except PyErr (Task × World) :=
  let t1 := { t with plan := t.plan ++ [task_plan] }
  match Task.update_status t1 .planned w with
  | .ok (t2, w1) => .ok (t2, Task.save t2 w1)
  | .error e => .error e

/-- `Task.schedule_task`: record the committed schedule, drive the status to
`SCHEDULED`, save. -/
def Task.schedule_task (t : Task) (departure_time start_time finish_time : Int)
    (w : World) : Except PyErr (Task × World) :=
  let t1 := { t with schedule := some ⟨departure_time, start_time, finish_time⟩ }
  match Task.update_status t1 .scheduled w with
  | .ok (t2, w1) => .ok (t2, Task.save t2 w1)
  | .error e => .error e

/-- `Task.update_alternative_start_time`: lazily create the
`AlternativeTimeslot` wrapper (with a freshly constructed empty start
constraint) when it is absent, then update its start window with the given
pair; a pre-existing wrapper without a start constraint would raise
(`None.update`). -/
def Task.update_alternative_start_time (t : Task) (earliest_time latest_time : Int)
    (save_in_db : Bool) (w : World) : Except PyErr (Task × World) :=
  let t1 :=
    match t.constraints.temporal.alternative_timeslot with
    | none => { t with constraints := ⟨{ t.constraints.temporal with
        alternative_timeslot := some ⟨some TimepointConstraint.new, none⟩ }⟩ }
    | some _ => t
  match t1.constraints.temporal.alternative_timeslot with
  | some ats =>
    match ats.start with
    | some tc =>
      let t2 := { t1 with constraints := ⟨{ t1.constraints.temporal with
        alternative_timeslot := some { ats with
          start := some (tc.update earliest_time latest_time) } }⟩ }
      if save_in_db then .ok (t2, Task.save t2 w) else .ok (t2, w)
    | none => .error .attributeError
  | none => .error .attributeError

/-- `Task.get_task` against the live store. Records of the typed embedding
always satisfy `clean_fields`, so `validate_model` returns the task as-is;
the field-level validation/deprecation behaviour is settled in `FmlibDep`. -/
def Task.get_task (task_id : Nat) (w : World) : Except PyErr Task :=
  match lookupRec task_id w.taskLive with
  | some t => .ok t
  | none => .error .doesNotExist

/-- `Task.get_archived_task`: the same lookup under
`switch_collection(..., archive_collection)`. -/
def Task.get_archived_task (task_id : Nat) (w : World) : Except PyErr Task :=
  match lookupRec task_id w.taskArchive with
  | some t => .ok t
  | none => .error .doesNotExist

/-- `Task.get_all_tasks` on the live collection (all typed records validate,
so no task is filtered out by the deprecation check). -/
def Task.get_all_tasks (w : World) : List Task :=
  w.taskLive.map (fun kv => kv.2)

/-- `Task.get_all_tasks` run under `switch_collection` on the archive
collection, as done inside `get_tasks_by_status`. -/
def Task.get_all_tasks_archived (w : World) : List Task :=
  w.taskArchive.map (fun kv => kv.2)

/-- The status of a task as tested by `task.status.status in status`; a task
without a status would raise in the source, and the list this predicate
builds is discarded there anyway. -/
def Task.status_matches (t : Task) (status : List TaskStatusConst) : Bool :=
  match t.status with
  | some st => status.contains st.status
  | none => false

/-- `Task.get_tasks_by_status`: fetch all live tasks, extend with all archived
tasks whenever the filter meets the terminal set, build `tasks_by_status` by
filtering — and then return the unfiltered `tasks` list, exactly as the
source does. -/
def Task.get_tasks_by_status (status : List TaskStatusConst) (w : World) : List Task :=
  let tasks := Task.get_all_tasks w
  let tasks :=
    if TaskStatus.archived_status.any (fun item => status.contains item) then
      tasks ++ Task.get_all_tasks_archived w
    else tasks
  let tasks_by_status := tasks.filter (fun task => task.status_matches status)
  tasks

end Fmlib

namespace FmlibDep

/-!
Field-level embedding of the archival/schema-deprecation protocol
(`Task.deprecate`, `TaskQuerySet.validate_model`,
`TaskStatusQuerySet.validate_model`, `TaskStatus.deprecate`).

Here a stored task is a bag of declared fields, each either missing
(`field.is_undefined`), holding a value that passes `field.validate`, or
holding a value that fails it. The store is always reachable in this layer
(unavailability is modelled in `Fmlib`); schema validity of a stored status
record is abstracted to a flag, since it is decided by pymodm over opaque
BSON.
-/

/-- The validation state of one declared field of a stored record.
`missing`/`validVal`/`invalidVal` describe stored records; `nulledVal` marks
a required field that deprecation explicitly set to `None`, and
`deprecatedVal` marks an embedded request that deprecation migrated in place
instead of dropping. -/
inductive FieldState where
  | missing
  | validVal
  | invalidVal
  | nulledVal
  | deprecatedVal
deriving DecidableEq

/-- One declared field of a stored record, as visited by the
`self._mongometa.get_fields()` loop. -/
structure ModelField where
  attname : String
  required : Bool
  state : FieldState
deriving DecidableEq

/-- A stored `TaskStatus` record; `valid` abstracts whether `full_clean`
passes on it. -/
structure TaskStatus where
  task_id : Nat
  status : Fmlib.TaskStatusConst
  valid : Bool
deriving DecidableEq

/-- A stored `Task` record at field granularity. `status` is the embedded
status (handled separately from the generic field loop, as in the source);
`request_is_null` is the `self.request != None` test of the loop's except
branch. -/
structure Task where
  task_id : Nat
  status : Option TaskStatus
  request_is_null : Bool
  fields : List ModelField
deriving DecidableEq

/-- The deprecation-layer store: live/archive collections for tasks and
statuses. -/
structure World where
  taskLive : List (Nat × Task)
  taskArchive : List (Nat × Task)
  statusLive : List (Nat × TaskStatus)
  statusArchive : List (Nat × TaskStatus)
deriving DecidableEq

/-- `clean_fields` succeeds iff no field value fails validation and no
required field is missing. -/
def Task.clean_fields_ok (t : Task) : Bool :=
  t.fields.all (fun f => f.state != .invalidVal && !(f.required && f.state == .missing))

/-- `Task.archive` at field granularity: move the record to the archive
collection under the same identity. -/
def Task.archive (t : Task) (w : World) : World :=
  { w with taskArchive := Fmlib.upsert t.task_id t w.taskArchive,
           taskLive := Fmlib.removeKey t.task_id w.taskLive }

/-- `TaskStatus.archive` at this granularity: move the status record to its
archive collection (the progress-record loop it also runs only touches the
action collections, modelled in `Fmlib`). -/
def TaskStatus.archive (ts : TaskStatus) (w : World) : World :=
  { w with statusArchive := Fmlib.upsert ts.task_id ts w.statusArchive,
           statusLive := Fmlib.removeKey ts.task_id w.statusLive }

/-- One iteration of the `get_fields` loop in `Task.deprecate`:
a missing required field is explicitly set to `None`; a field whose value
fails validation raises inside the `try`, and the handler deprecates a
non-null embedded request in place but drops (`delattr`) any other failing
field; everything else is left untouched. -/
def deprecate_field (request_is_null : Bool) (f : ModelField) : Option ModelField :=
  match f.state with
  | .missing => if f.required then some { f with state := .nulledVal } else some f
  | .invalidVal =>
    if f.attname == "request" && !request_is_null then
      some { f with state := .deprecatedVal }
    else none
  | _ => some f

/-- `Task.deprecate`: materialize a default status if absent, mark it
`DEPRECATED` and archive it; run the field loop; archive the
partially-stripped task. Returns the stripped record, as the source does. -/
def Task.deprecate (t : Task) (w : World) : Task × World :=
  let st0 := match t.status with
    | some st => st
    | none => ⟨t.task_id, .unallocated, true⟩
  let st := { st0 with status := .deprecated }
  let w1 := st.archive w
  let t1 := { t with status := some st,
                     fields := t.fields.filterMap (deprecate_field t.request_is_null) }
  (t1, t1.archive w1)

/-- `TaskQuerySet.get_task` composed with `TaskQuerySet.validate_model`: a
missing record raises `DoesNotExist`; a record failing `clean_fields` is
deprecated and the deprecated record is returned to the caller (the
`ValidationError` is caught, not re-raised). The final world is returned
alongside so that side effects survive either outcome. -/
def Task.get_task (task_id : Nat) (w : World) :
    Except Fmlib.PyErr Task × World :=
  match Fmlib.lookupRec task_id w.taskLive with
  | none => (.error .doesNotExist, w)
  | some t =>
    if t.clean_fields_ok then (.ok t, w)
    else
      let (t1, w1) := t.deprecate w
      (.ok t1, w1)

/-- `TaskStatus.deprecate`: try to fetch the associated task; archive it if
it was found (a deprecating `get_task` has already archived it once, and
`archive` simply re-saves the same record into the archive and performs a
no-op delete); `DoesNotExist` is swallowed. The invalid status record itself
is not touched here. -/
def TaskStatus.deprecate (ts : TaskStatus) (w : World) : World :=
  match Task.get_task ts.task_id w with
  | (.ok t, w1) => t.archive w1
  | (.error _, w1) => w1

/-- `TaskStatusQuerySet.get_task_status` composed with its `validate_model`:
a missing record raises `DoesNotExist`; a record failing `full_clean` is
deprecated and then the `ValidationError` is re-raised to the caller. -/
def TaskStatus.get_task_status (task_id : Nat) (w : World) :
    Except Fmlib.PyErr TaskStatus × World :=
  match Fmlib.lookupRec task_id w.statusLive with
  | none => (.error .doesNotExist, w)
  | some ts =>
    if ts.valid then (.ok ts, w)
    else (.error .validationError, ts.deprecate w)

end FmlibDep

/-! ### Claim theorems -/

/-- Archiving one action-progress record succeeds on a reachable store and
leaves the task and status collections (and reachability) untouched. -/
theorem actionProgress_archive_ok (ap : Fmlib.ActionProgress) (w : Fmlib.World)
    (hw : w.available = true) :
    ∃ w1, ap.archive w = .ok w1 ∧ w1.available = true ∧
      w1.taskLive = w.taskLive ∧ w1.taskArchive = w.taskArchive ∧
      w1.statusLive = w.statusLive ∧ w1.statusArchive = w.statusArchive := by
  cases hga : Fmlib.ActionRec.get_action ap.action_id w with
  | none => simp [Fmlib.ActionProgress.archive, hga, hw]
  | some a =>
    simp [Fmlib.ActionProgress.archive, Fmlib.ActionRec.archive, hga, hw]

/-- Archiving a list of action-progress records succeeds on a reachable
store and leaves the task and status collections (and reachability)
untouched. -/
theorem actionProgress_archive_all_ok (l : List Fmlib.ActionProgress) :
    ∀ w : Fmlib.World, w.available = true →
      ∃ w1, Fmlib.ActionProgress.archive_all l w = .ok w1 ∧ w1.available = true ∧
        w1.taskLive = w.taskLive ∧ w1.taskArchive = w.taskArchive ∧
        w1.statusLive = w.statusLive ∧ w1.statusArchive = w.statusArchive := by
  induction l with
  | nil => intro w hw; exact ⟨w, rfl, hw, rfl, rfl, rfl, rfl⟩
  | cons ap rest ih =>
    intro w hw
    obtain ⟨w1, h1, ha1, htl1, hta1, hsl1, hsa1⟩ := actionProgress_archive_ok ap w hw
    obtain ⟨w2, h2, ha2, htl2, hta2, hsl2, hsa2⟩ := ih w1 ha1
    refine ⟨w2, ?_, ha2, ?_, ?_, ?_, ?_⟩
    · simp [Fmlib.ActionProgress.archive_all, h1, h2]
    · rw [htl2, htl1]
    · rw [hta2, hta1]
    · rw [hsl2, hsl1]
    · rw [hsa2, hsa1]

/-- `TaskStatus.archive` on a reachable store succeeds, moves the status
record from the live to the archive status collection, and leaves the task
collections untouched. -/
theorem taskStatus_archive_ok (ts : Fmlib.TaskStatus) (w : Fmlib.World)
    (hw : w.available = true) :
    ∃ w1, ts.archive w = .ok w1 ∧ w1.available = true ∧
      w1.taskLive = w.taskLive ∧ w1.taskArchive = w.taskArchive ∧
      w1.statusLive = Fmlib.removeKey ts.task_id w.statusLive ∧
      w1.statusArchive = Fmlib.upsert ts.task_id ts w.statusArchive := by
  cases hp : ts.progress with
  | none => simp [Fmlib.TaskStatus.archive, hp, hw]
  | some pr =>
    obtain ⟨wm, hm, ham, htlm, htam, hslm, hsam⟩ :=
      actionProgress_archive_all_ok pr.actions w hw
    refine ⟨({ wm with statusArchive := Fmlib.upsert ts.task_id ts wm.statusArchive, statusLive := Fmlib.removeKey ts.task_id wm.statusLive } : Fmlib.World), ?_, ham, htlm, htam, ?_, ?_⟩
    · simp [Fmlib.TaskStatus.archive, hp, hm, ham]
    · simp [hslm]
    · simp [hsam]

/-- C1: `update_status(s)` with a terminal `s` archives the status record and
then archives the task record: afterwards `get_task` against the live store
reports `DoesNotExist`, the same id resolves via the archive store, no live
copy of either record remains, and the archived status carries `s`. -/
theorem C1_update_status_terminal_archives
    (t : Fmlib.Task) (s : Fmlib.TaskStatusConst) (w : Fmlib.World)
    (hs : s ∈ Fmlib.TaskStatus.archived_status) (hw : w.available = true) :
    ∃ t1 w2, Fmlib.Task.update_status t s w = .ok (t1, w2) ∧
      Fmlib.Task.get_task t.task_id w2 = .error .doesNotExist ∧
      Fmlib.lookupRec t.task_id w2.taskLive = none ∧
      Fmlib.Task.get_archived_task t.task_id w2 = .ok t1 ∧
      ∃ st, t1.status = some st ∧ st.status = s ∧
        Fmlib.lookupRec st.task_id w2.statusArchive = some st ∧
        Fmlib.lookupRec st.task_id w2.statusLive = none := by
  cases hst : t.status with
  | none =>
    obtain ⟨w1, ha, hav, htl, hta, hsl, hsa⟩ :=
      taskStatus_archive_ok { Fmlib.TaskStatus.new t.task_id with status := s } w hw
    refine ⟨({ t with status := some { Fmlib.TaskStatus.new t.task_id with status := s } } : Fmlib.Task), ({ w1 with taskArchive := Fmlib.upsert t.task_id ({ t with status := some { Fmlib.TaskStatus.new t.task_id with status := s } } : Fmlib.Task) w1.taskArchive, taskLive := Fmlib.removeKey t.task_id w1.taskLive } : Fmlib.World), ?_, ?_, ?_, ?_, ({ Fmlib.TaskStatus.new t.task_id with status := s } : Fmlib.TaskStatus), rfl, rfl, ?_, ?_⟩
    · simp [Fmlib.Task.update_status, hst, hs, ha, Fmlib.Task.archive, hav]
    · simp [Fmlib.Task.get_task, Fmlib.lookupRec_removeKey_self]
    · simp [Fmlib.lookupRec_removeKey_self]
    · simp [Fmlib.Task.get_archived_task, Fmlib.lookupRec_upsert_self]
    · simp [hsa, Fmlib.lookupRec_upsert_self]
    · simp [hsl, Fmlib.lookupRec_removeKey_self]
  | some st0 =>
    obtain ⟨w1, ha, hav, htl, hta, hsl, hsa⟩ :=
      taskStatus_archive_ok { st0 with status := s } w hw
    refine ⟨({ t with status := some { st0 with status := s } } : Fmlib.Task), ({ w1 with taskArchive := Fmlib.upsert t.task_id ({ t with status := some { st0 with status := s } } : Fmlib.Task) w1.taskArchive, taskLive := Fmlib.removeKey t.task_id w1.taskLive } : Fmlib.World), ?_, ?_, ?_, ?_, ({ st0 with status := s } : Fmlib.TaskStatus), rfl, rfl, ?_, ?_⟩
    · simp [Fmlib.Task.update_status, hst, hs, ha, Fmlib.Task.archive, hav]
    · simp [Fmlib.Task.get_task, Fmlib.lookupRec_removeKey_self]
    · simp [Fmlib.lookupRec_removeKey_self]
    · simp [Fmlib.Task.get_archived_task, Fmlib.lookupRec_upsert_self]
    · simp [hsa, Fmlib.lookupRec_upsert_self]
    · simp [hsl, Fmlib.lookupRec_removeKey_self]

/-- A running task with progress, used to witness C1. -/
def sampleTaskC1 : Fmlib.Task :=
  ⟨5, none, none,
    some ⟨5, .running, false, false, false, none, some ⟨some 21, [⟨21⟩]⟩⟩,
    [], [], ⟨⟨none, none, none, none, none⟩⟩, none, [], [], none⟩

/-- A sample world holding the C1 task, its status record, an action and an
action-progress record. -/
def sampleWorldC1 : Fmlib.World :=
  ⟨true, [(5, sampleTaskC1)], [],
    [(5, ⟨5, .running, false, false, false, none, some ⟨some 21, [⟨21⟩]⟩⟩)], [],
    [(21, ⟨21⟩)], [], [(21, ⟨21⟩)], []⟩

/-- Witness for C1 at the concrete task and world, with terminal status
`FINISHED`. -/
theorem C1_update_status_terminal_archives_witness :
    Fmlib.TaskStatusConst.finished ∈ Fmlib.TaskStatus.archived_status ∧
    sampleWorldC1.available = true ∧
    (∃ t1 w2, Fmlib.Task.update_status sampleTaskC1 .finished sampleWorldC1
        = .ok (t1, w2) ∧
      Fmlib.Task.get_task 5 w2 = .error .doesNotExist ∧
      Fmlib.lookupRec 5 w2.taskLive = none ∧
      Fmlib.Task.get_archived_task 5 w2 = .ok t1 ∧
      ∃ st, t1.status = some st ∧ st.status = .finished ∧
        Fmlib.lookupRec st.task_id w2.statusArchive = some st ∧
        Fmlib.lookupRec st.task_id w2.statusLive = none) :=
  ⟨by decide, rfl,
    C1_update_status_terminal_archives sampleTaskC1 .finished sampleWorldC1
      (by decide) rfl⟩

/-- C7: if the document store is unavailable during a save, the underlying
write raises `ServerSelectionTimeoutError`, `Task.save` catches it, logs a
warning and returns without re-raising, and the store is left unchanged by
the failure (the in-memory task is never touched by `save`, which only maps
the world). -/
theorem C7_save_swallows_store_unavailable (t : Fmlib.Task) (w : Fmlib.World)
    (hw : w.available = false) :
    Fmlib.Task.saveRaw t w = .error .serverTimeout ∧ Fmlib.Task.save t w = w := by
  constructor
  · simp [Fmlib.Task.saveRaw, hw]
  · simp [Fmlib.Task.save, Fmlib.Task.saveRaw, hw]

/-- A sample task used to witness C7. -/
def sampleTaskC7 : Fmlib.Task :=
  ⟨1, none, none, none, [], [], ⟨⟨none, none, none, none, none⟩⟩, none, [], [], none⟩

/-- A sample unavailable world used to witness C7. -/
def sampleWorldC7 : Fmlib.World := ⟨false, [], [], [], [], [], [], [], []⟩

/-- Witness for C7 at a concrete task and unavailable world. -/
theorem C7_save_swallows_store_unavailable_witness :
    sampleWorldC7.available = false ∧
      (Fmlib.Task.saveRaw sampleTaskC7 sampleWorldC7 = .error .serverTimeout ∧
        Fmlib.Task.save sampleTaskC7 sampleWorldC7 = sampleWorldC7) :=
  ⟨rfl, C7_save_swallows_store_unavailable sampleTaskC7 sampleWorldC7 rfl⟩

/-- C8: on a task whose constraints have no alternative timeslot,
`update_alternative_start_time(earliest, latest)` first creates the
`AlternativeTimeslot` wrapper (with a freshly constructed empty start
constraint) and then updates its start with the pair, so the call does not
raise and afterwards `alternative_timeslot.start` holds exactly
`(earliest, latest)`. -/
theorem C8_update_alternative_start_time_lazy_create
    (t : Fmlib.Task) (earliest_time latest_time : Int) (save_in_db : Bool)
    (w : Fmlib.World)
    (h : t.constraints.temporal.alternative_timeslot = none) :
    ∃ t2 w2,
      Fmlib.Task.update_alternative_start_time t earliest_time latest_time save_in_db w
        = .ok (t2, w2) ∧
      t2.constraints.temporal.alternative_timeslot =
        some ⟨some ⟨some earliest_time, some latest_time⟩, none⟩ := by
  cases save_in_db <;>
    simp [Fmlib.Task.update_alternative_start_time, h,
      Fmlib.TimepointConstraint.update, Fmlib.TimepointConstraint.new]

/-- A sample task without an alternative timeslot, used to witness C8. -/
def sampleTaskC8 : Fmlib.Task :=
  ⟨2, none, none, none, [], [], ⟨⟨none, none, none, none, none⟩⟩, none, [], [], none⟩

/-- A sample world used to witness C8. -/
def sampleWorldC8 : Fmlib.World := ⟨true, [], [], [], [], [], [], [], []⟩

/-- Witness for C8 at a concrete task, bounds `(5, 9)` and a concrete world. -/
theorem C8_update_alternative_start_time_lazy_create_witness :
    sampleTaskC8.constraints.temporal.alternative_timeslot = none ∧
      ∃ t2 w2,
        Fmlib.Task.update_alternative_start_time sampleTaskC8 5 9 true sampleWorldC8
          = .ok (t2, w2) ∧
        t2.constraints.temporal.alternative_timeslot =
          some ⟨some ⟨some 5, some 9⟩, none⟩ :=
  ⟨rfl, C8_update_alternative_start_time_lazy_create sampleTaskC8 5 9 true sampleWorldC8 rfl⟩

/-- C10: `get_tasks_by_status` returns the entire fetched list — all live
tasks, extended with all archived tasks whenever the filter meets the
terminal set — not the `tasks_by_status` list it builds internally; in
particular every live task is returned whatever its status. -/
theorem C10_get_tasks_by_status_returns_unfiltered
    (status : List Fmlib.TaskStatusConst) (w : Fmlib.World) :
    Fmlib.Task.get_tasks_by_status status w =
      (if Fmlib.TaskStatus.archived_status.any (fun item => status.contains item)
       then Fmlib.Task.get_all_tasks w ++ Fmlib.Task.get_all_tasks_archived w
       else Fmlib.Task.get_all_tasks w) ∧
    ∀ t ∈ Fmlib.Task.get_all_tasks w, t ∈ Fmlib.Task.get_tasks_by_status status w := by
  constructor
  · rfl
  · intro t ht
    show t ∈ (if _ then _ else _)
    split
    · exact List.mem_append_left _ ht
    · exact ht

/-- C9: when the node resolves and the first matching edge carries weight 0
(so the computed offset is exactly zero seconds, for either bound),
`get_time` returns no time at all even though a matching node and edge
exist, because the source tests the offset for truthiness (`if time_:`)
rather than for presence. -/
theorem C9_get_time_zero_offset_absent
    (tt : Fmlib.Timetable) (task_id node_type : String) (n : Nat)
    (lower_bound : Bool) (link : Fmlib.GraphLink)
    (hn : tt.get_node_id task_id node_type = some n)
    (hfind : tt.dispatchable_graph.links.find? (fun l2 =>
        (lower_bound && (l2.source == n) && (l2.target == 0)) ||
        (!lower_bound && (l2.source == 0) && (l2.target == n))) = some link)
    (hw : link.weight = 0) :
    tt.get_time task_id node_type lower_bound = none := by
  have hcong := Fmlib.find?_congr (l := tt.dispatchable_graph.links)
    (p := fun l2 : Fmlib.GraphLink =>
      (lower_bound && (some l2.source == some n) && (l2.target == 0)) ||
      (!lower_bound && (l2.source == 0) && (some l2.target == some n)))
    (q := fun l2 : Fmlib.GraphLink =>
      (lower_bound && (l2.source == n) && (l2.target == 0)) ||
      (!lower_bound && (l2.source == 0) && (l2.target == n)))
    (by intro a; rfl)
  unfold Fmlib.Timetable.get_time
  simp only [hn]
  rw [hcong, hfind]
  cases lower_bound <;> simp [hw]

/-- C2 (amended): when the node tagged `(task_id, node_type)` resolves to
`n`, `get_time` with `lower_bound` returns `ztp` minus the weight of the
first edge `(n, 0)` provided that weight is nonzero, and without
`lower_bound` returns `ztp` plus the weight of the first edge `(0, n)`
provided that weight is nonzero; when no matching edge exists the result is
absent (no error). (A matching edge of weight zero also yields an absent
result — the truthiness test settled under C9 — which is what forces the
nonzero proviso onto the original claim.) -/
theorem C2_get_time_bounds
    (tt : Fmlib.Timetable) (task_id node_type : String) (n : Nat)
    (hn : tt.get_node_id task_id node_type = some n) :
    (∀ link : Fmlib.GraphLink,
      tt.dispatchable_graph.links.find?
          (fun l2 => (l2.source == n) && (l2.target == 0)) = some link →
      link.weight ≠ 0 →
      tt.get_time task_id node_type true = some (tt.ztp - link.weight)) ∧
    (tt.dispatchable_graph.links.find?
        (fun l2 => (l2.source == n) && (l2.target == 0)) = none →
      tt.get_time task_id node_type true = none) ∧
    (∀ link : Fmlib.GraphLink,
      tt.dispatchable_graph.links.find?
          (fun l2 => (l2.source == 0) && (l2.target == n)) = some link →
      link.weight ≠ 0 →
      tt.get_time task_id node_type false = some (tt.ztp + link.weight)) ∧
    (tt.dispatchable_graph.links.find?
        (fun l2 => (l2.source == 0) && (l2.target == n)) = none →
      tt.get_time task_id node_type false = none) := by
  have hcongLow := Fmlib.find?_congr (l := tt.dispatchable_graph.links)
    (p := fun l2 : Fmlib.GraphLink =>
      (true && (some l2.source == some n) && (l2.target == 0)) ||
      (!true && (l2.source == 0) && (some l2.target == some n)))
    (q := fun l2 : Fmlib.GraphLink => (l2.source == n) && (l2.target == 0))
    (by intro a; simp)
  have hcongUp := Fmlib.find?_congr (l := tt.dispatchable_graph.links)
    (p := fun l2 : Fmlib.GraphLink =>
      (false && (some l2.source == some n) && (l2.target == 0)) ||
      (!false && (l2.source == 0) && (some l2.target == some n)))
    (q := fun l2 : Fmlib.GraphLink => (l2.source == 0) && (l2.target == n))
    (by intro a; simp)
  refine ⟨?_, ?_, ?_, ?_⟩
  · intro link hfind hne
    unfold Fmlib.Timetable.get_time
    simp only [hn]
    rw [hcongLow, hfind]
    simp [hne, sub_eq_add_neg]
  · intro hfind
    unfold Fmlib.Timetable.get_time
    simp only [hn]
    rw [hcongLow, hfind]
  · intro link hfind hne
    unfold Fmlib.Timetable.get_time
    simp only [hn]
    rw [hcongUp, hfind]
    simp [hne]
  · intro hfind
    unfold Fmlib.Timetable.get_time
    simp only [hn]
    rw [hcongUp, hfind]

/-- A sample timetable for the C2 counterexample: node 3 is tagged
`(t1, start)` and the only edge `(3, 0)` carries weight 0, so the original
claim would demand `ztp - 0`, but the code returns no time. -/
def sampleTimetableC2x : Fmlib.Timetable :=
  ⟨1, 1000, ⟨[⟨3, ⟨"t1", "start"⟩⟩], [⟨3, 0, 0⟩]⟩⟩

/-- The task id tag used by the C2 counterexample and witness. -/
def sampleTaskIdC2 : String := "t1"

/-- The node type tag used by the C2 counterexample and witness. -/
def sampleNodeTypeC2 : String := "start"

/-- Counterexample to C2 as stated: the node resolves, a first matching edge
`(3, 0)` exists with weight 0, yet `get_time` returns nothing rather than
`ztp - 0`. -/
theorem C2_get_time_bounds_counterexample :
    sampleTimetableC2x.get_node_id sampleTaskIdC2 sampleNodeTypeC2 = some 3 ∧
    sampleTimetableC2x.dispatchable_graph.links.find?
        (fun l2 => (l2.source == 3) && (l2.target == 0)) =
      some (⟨3, 0, 0⟩ : Fmlib.GraphLink) ∧
    sampleTimetableC2x.get_time sampleTaskIdC2 sampleNodeTypeC2 true = none ∧
    sampleTimetableC2x.get_time sampleTaskIdC2 sampleNodeTypeC2 true ≠
      some (sampleTimetableC2x.ztp - (0 : Int)) :=
  ⟨rfl, rfl, rfl, by decide⟩

/-- A sample timetable for the C2 witness: node 3 is tagged `(t1, start)`,
with edges `(3, 0)` of weight 60 and `(0, 3)` of weight 90, matching the
spec's own worked example. -/
def sampleTimetableC2 : Fmlib.Timetable :=
  ⟨1, 1000, ⟨[⟨3, ⟨"t1", "start"⟩⟩], [⟨3, 0, 60⟩, ⟨0, 3, 90⟩]⟩⟩

/-- Witness for C2 at the concrete timetable: the lower bound is
`ztp - 60` and the upper bound `ztp + 90`. -/
theorem C2_get_time_bounds_witness :
    sampleTimetableC2.get_node_id sampleTaskIdC2 sampleNodeTypeC2 = some 3 ∧
    sampleTimetableC2.get_time sampleTaskIdC2 sampleNodeTypeC2 true =
      some (1000 - 60) ∧
    sampleTimetableC2.get_time sampleTaskIdC2 sampleNodeTypeC2 false =
      some (1000 + 90) :=
  ⟨rfl,
    (C2_get_time_bounds sampleTimetableC2 sampleTaskIdC2 sampleNodeTypeC2 3 rfl).1
      ⟨3, 0, 60⟩ rfl (by decide),
    (C2_get_time_bounds sampleTimetableC2 sampleTaskIdC2 sampleNodeTypeC2 3 rfl).2.2.1
      ⟨0, 3, 90⟩ rfl (by decide)⟩

/-- A sample timetable for the C9 witness: node 3 is tagged `(t1, start)`,
and the edge `(3, 0)` carries weight 0. -/
def sampleTimetableC9 : Fmlib.Timetable :=
  ⟨1, 1000, ⟨[⟨3, ⟨"t1", "start"⟩⟩], [⟨3, 0, 0⟩, ⟨0, 3, 0⟩]⟩⟩

/-- The task id tag used by the C9 witness. -/
def sampleTaskIdC9 : String := "t1"

/-- The node type tag used by the C9 witness. -/
def sampleNodeTypeC9 : String := "start"

/-- Witness for C9 at the concrete timetable, lower bound. -/
theorem C9_get_time_zero_offset_absent_witness :
    sampleTimetableC9.get_node_id sampleTaskIdC9 sampleNodeTypeC9 = some 3 ∧
      sampleTimetableC9.dispatchable_graph.links.find? (fun l2 =>
        (true && (l2.source == 3) && (l2.target == 0)) ||
        (!true && (l2.source == 0) && (l2.target == 3))) =
          some (⟨3, 0, 0⟩ : Fmlib.GraphLink) ∧
      (⟨3, 0, 0⟩ : Fmlib.GraphLink).weight = 0 ∧
      sampleTimetableC9.get_time sampleTaskIdC9 sampleNodeTypeC9 true = none :=
  ⟨rfl, rfl, rfl,
    C9_get_time_zero_offset_absent sampleTimetableC9 sampleTaskIdC9 sampleNodeTypeC9 3
      true ⟨3, 0, 0⟩ rfl rfl rfl⟩

/-- C4 (amended): on a task with at least one plan stage and a reachable
store, `unassign_robots` resets `assigned_robots` to the empty list, sets the
first plan stage's robot to unset, replaces `travel_time` with a freshly
constructed estimate whose mean and variance are unset (not a zero-mean
estimate — that is what the counterexample forces the claim to give up), and
drives the status to UNALLOCATED. -/
theorem C4_unassign_robots_resets
    (t : Fmlib.Task) (p0 : Fmlib.TaskPlan) (rest : List Fmlib.TaskPlan)
    (w : Fmlib.World) (hplan : t.plan = p0 :: rest) (hw : w.available = true) :
    ∃ t3 w3, Fmlib.Task.unassign_robots t w = .ok (t3, w3) ∧
      t3.assigned_robots = [] ∧
      t3.plan = { p0 with robot := none } :: rest ∧
      t3.constraints.temporal.travel_time = some Fmlib.EstimatedDuration.new ∧
      ∃ st, t3.status = some st ∧ st.status = .unallocated := by
  cases hst : t.status with
  | none =>
    simp [Fmlib.Task.unassign_robots, Fmlib.Task.save, Fmlib.Task.saveRaw,
      Fmlib.Task.update_status, Fmlib.TaskStatus.save, Fmlib.TaskStatus.archived_status,
      hplan, hw, hst]
  | some st =>
    simp [Fmlib.Task.unassign_robots, Fmlib.Task.save, Fmlib.Task.saveRaw,
      Fmlib.Task.update_status, Fmlib.TaskStatus.save, Fmlib.TaskStatus.archived_status,
      hplan, hw, hst]

/-- The robot id used by the C4 sample task. -/
def sampleRobotC4 : String := "R1"

/-- A sample allocated task with one plan stage, used for C4. -/
def sampleTaskC4 : Fmlib.Task :=
  ⟨4, none, none, some ⟨4, .allocated, false, false, false, none, none⟩,
    [sampleRobotC4], [⟨some sampleRobotC4, []⟩],
    ⟨⟨none, none, none, some ⟨some 12, some 3⟩, none⟩⟩, none, [], [], none⟩

/-- A sample world holding the C4 task. -/
def sampleWorldC4 : Fmlib.World :=
  ⟨true, [(4, sampleTaskC4)], [], [], [], [], [], [], []⟩

/-- Counterexample to C4 as stated: after `unassign_robots` the travel time
is the freshly constructed estimate with unset mean and variance, which is
not a zero-mean estimate. -/
theorem C4_unassign_robots_resets_counterexample :
    (Fmlib.Task.unassign_robots sampleTaskC4 sampleWorldC4).map
        (fun r => r.1.constraints.temporal.travel_time) =
      .ok (some Fmlib.EstimatedDuration.new) ∧
    some Fmlib.EstimatedDuration.new ≠ some Fmlib.EstimatedDuration.zero_mean :=
  ⟨rfl, by decide⟩

/-- Witness for C4 at the concrete task and world. -/
theorem C4_unassign_robots_resets_witness :
    sampleTaskC4.plan = (⟨some sampleRobotC4, []⟩ : Fmlib.TaskPlan) :: [] ∧
    sampleWorldC4.available = true ∧
    (∃ t3 w3, Fmlib.Task.unassign_robots sampleTaskC4 sampleWorldC4 = .ok (t3, w3) ∧
      t3.assigned_robots = [] ∧
      t3.plan = { (⟨some sampleRobotC4, []⟩ : Fmlib.TaskPlan) with robot := none } :: [] ∧
      t3.constraints.temporal.travel_time = some Fmlib.EstimatedDuration.new ∧
      ∃ st, t3.status = some st ∧ st.status = .unallocated) :=
  ⟨rfl, rfl, C4_unassign_robots_resets sampleTaskC4 ⟨some sampleRobotC4, []⟩ []
    sampleWorldC4 rfl rfl⟩

/-- C5 (amended): deprecating a task record visits every declared field:
a required field that is absent is explicitly set to null; a field whose
value fails validation is dropped from the record — except the `request`
field when the embedded request is non-null, which is deprecated in place
and kept (amendment forced by the counterexample); no per-field error
reaches the caller (`deprecate` is total); the owned status is marked
DEPRECATED and archived; and the partially-stripped task record is then
archived, leaving no live copy. -/
theorem C5_deprecate_field_policy (t : FmlibDep.Task) (w : FmlibDep.World) :
    (FmlibDep.Task.deprecate t w).1.fields =
      t.fields.filterMap (FmlibDep.deprecate_field t.request_is_null) ∧
    (∃ st, (FmlibDep.Task.deprecate t w).1.status = some st ∧
      st.status = .deprecated ∧
      Fmlib.lookupRec st.task_id (FmlibDep.Task.deprecate t w).2.statusArchive
        = some st ∧
      Fmlib.lookupRec st.task_id (FmlibDep.Task.deprecate t w).2.statusLive = none) ∧
    Fmlib.lookupRec t.task_id (FmlibDep.Task.deprecate t w).2.taskArchive =
      some (FmlibDep.Task.deprecate t w).1 ∧
    Fmlib.lookupRec t.task_id (FmlibDep.Task.deprecate t w).2.taskLive = none := by
  cases hst : t.status with
  | none =>
    refine ⟨rfl, ⟨⟨t.task_id, .deprecated, true⟩, ?_, rfl, ?_, ?_⟩, ?_, ?_⟩ <;>
      simp [FmlibDep.Task.deprecate, FmlibDep.Task.archive, FmlibDep.TaskStatus.archive,
        hst, Fmlib.lookupRec_upsert_self, Fmlib.lookupRec_removeKey_self]
  | some st0 =>
    refine ⟨rfl, ⟨{ st0 with status := .deprecated }, ?_, rfl, ?_, ?_⟩, ?_, ?_⟩ <;>
      simp [FmlibDep.Task.deprecate, FmlibDep.Task.archive, FmlibDep.TaskStatus.archive,
        hst, Fmlib.lookupRec_upsert_self, Fmlib.lookupRec_removeKey_self]

/-- A stored task record whose `request` field holds a value that fails
validation (and whose request is non-null), used against C5 as stated. -/
def sampleDepTaskC5 : FmlibDep.Task :=
  ⟨6, some ⟨6, .running, true⟩, false, [⟨"request", false, .invalidVal⟩]⟩

/-- A deprecation-layer world holding the C5 task. -/
def sampleDepWorldC5 : FmlibDep.World :=
  ⟨[(6, sampleDepTaskC5)], [], [(6, ⟨6, .running, true⟩)], []⟩

/-- Counterexample to C5 as stated: the record's `request` field fails
validation, yet after deprecation the field is still present in the record
(the embedded request was deprecated in place, not dropped). -/
theorem C5_deprecate_field_policy_counterexample :
    sampleDepTaskC5.fields.any (fun f2 =>
      f2.attname == "request" && f2.state == FmlibDep.FieldState.invalidVal) = true ∧
    sampleDepTaskC5.request_is_null = false ∧
    (FmlibDep.Task.deprecate sampleDepTaskC5 sampleDepWorldC5).1.fields.any
      (fun f2 => f2.attname == "request") = true :=
  ⟨rfl, rfl, rfl⟩

/-- Witness for C5 at the concrete record and world. -/
theorem C5_deprecate_field_policy_witness :
    (FmlibDep.Task.deprecate sampleDepTaskC5 sampleDepWorldC5).1.fields =
      sampleDepTaskC5.fields.filterMap
        (FmlibDep.deprecate_field sampleDepTaskC5.request_is_null) ∧
    (∃ st, (FmlibDep.Task.deprecate sampleDepTaskC5 sampleDepWorldC5).1.status
        = some st ∧
      st.status = .deprecated ∧
      Fmlib.lookupRec st.task_id
        (FmlibDep.Task.deprecate sampleDepTaskC5 sampleDepWorldC5).2.statusArchive
          = some st ∧
      Fmlib.lookupRec st.task_id
        (FmlibDep.Task.deprecate sampleDepTaskC5 sampleDepWorldC5).2.statusLive
          = none) ∧
    Fmlib.lookupRec 6
        (FmlibDep.Task.deprecate sampleDepTaskC5 sampleDepWorldC5).2.taskArchive =
      some (FmlibDep.Task.deprecate sampleDepTaskC5 sampleDepWorldC5).1 ∧
    Fmlib.lookupRec 6
        (FmlibDep.Task.deprecate sampleDepTaskC5 sampleDepWorldC5).2.taskLive = none :=
  C5_deprecate_field_policy sampleDepTaskC5 sampleDepWorldC5

/-- C6 (amended): a record failing schema validation on a public read path is
deprecated inside the read path; `get_task` then returns the migrated record
without surfacing an error, but `get_task_status` re-raises the
`ValidationError` to the caller after deprecating (amendment forced by the
counterexample). -/
theorem C6_read_path_validation (task_id : Nat) (w : FmlibDep.World) :
    (∀ t, Fmlib.lookupRec task_id w.taskLive = some t →
      t.clean_fields_ok = false →
      FmlibDep.Task.get_task task_id w =
        (.ok (FmlibDep.Task.deprecate t w).1, (FmlibDep.Task.deprecate t w).2)) ∧
    (∀ ts, Fmlib.lookupRec task_id w.statusLive = some ts →
      ts.valid = false →
      FmlibDep.TaskStatus.get_task_status task_id w =
        (.error .validationError, FmlibDep.TaskStatus.deprecate ts w)) := by
  constructor
  · intro t h1 h2
    rcases hdep : FmlibDep.Task.deprecate t w with ⟨t1, w1⟩
    simp [FmlibDep.Task.get_task, h1, h2, hdep]
  · intro ts h1 h2
    simp [FmlibDep.TaskStatus.get_task_status, h1, h2]

/-- A stored task record missing a required field, used to witness C6. -/
def sampleDepTaskC6 : FmlibDep.Task :=
  ⟨7, some ⟨7, .running, true⟩, true, [⟨"plan", true, .missing⟩]⟩

/-- A stored status record that fails validation, used to witness C6. -/
def sampleDepStatusC6 : FmlibDep.TaskStatus := ⟨7, .running, false⟩

/-- A deprecation-layer world holding the invalid C6 records. -/
def sampleDepWorldC6 : FmlibDep.World :=
  ⟨[(7, sampleDepTaskC6)], [], [(7, sampleDepStatusC6)], []⟩

/-- Witness for C6 at the concrete world: both read paths hit records failing
validation; `get_task` swallows, `get_task_status` re-raises. -/
theorem C6_read_path_validation_witness :
    Fmlib.lookupRec 7 sampleDepWorldC6.taskLive = some sampleDepTaskC6 ∧
    sampleDepTaskC6.clean_fields_ok = false ∧
    FmlibDep.Task.get_task 7 sampleDepWorldC6 =
      (.ok (FmlibDep.Task.deprecate sampleDepTaskC6 sampleDepWorldC6).1,
        (FmlibDep.Task.deprecate sampleDepTaskC6 sampleDepWorldC6).2) ∧
    Fmlib.lookupRec 7 sampleDepWorldC6.statusLive = some sampleDepStatusC6 ∧
    sampleDepStatusC6.valid = false ∧
    FmlibDep.TaskStatus.get_task_status 7 sampleDepWorldC6 =
      (.error .validationError,
        FmlibDep.TaskStatus.deprecate sampleDepStatusC6 sampleDepWorldC6) :=
  ⟨rfl, rfl, (C6_read_path_validation 7 sampleDepWorldC6).1 sampleDepTaskC6 rfl rfl,
    rfl, rfl, (C6_read_path_validation 7 sampleDepWorldC6).2 sampleDepStatusC6 rfl rfl⟩

/-- A stored status record failing validation, for the C6 counterexample. -/
def sampleDepStatusC6x : FmlibDep.TaskStatus := ⟨8, .running, false⟩

/-- A deprecation-layer world holding only the invalid status record, for
the C6 counterexample. -/
def sampleDepWorldC6x : FmlibDep.World := ⟨[], [], [(8, sampleDepStatusC6x)], []⟩

/-- Counterexample to C6 as stated: a status record that fails validation is
surfaced to the `get_task_status` caller as a raised `ValidationError`, not
handled transparently. -/
theorem C6_read_path_validation_counterexample :
    Fmlib.lookupRec 8 sampleDepWorldC6x.statusLive = some sampleDepStatusC6x ∧
    sampleDepStatusC6x.valid = false ∧
    (FmlibDep.TaskStatus.get_task_status 8 sampleDepWorldC6x).1 =
      .error .validationError :=
  ⟨rfl, rfl, rfl⟩

/-- An empty reachable world used by the C3 counterexample and witness. -/
def sampleWorldC3 : Fmlib.World := ⟨true, [], [], [], [], [], [], [], []⟩

/-- The robot id used by the C3 counterexample and witness. -/
def sampleRobotC3 : String := "R1"

/-- Counterexample to C3 as stated: a task created with no plan does start
UNALLOCATED, but `assign_robots` then dereferences `plan[0]` and raises
`IndexError` instead of yielding ALLOCATED. -/
theorem C3_lifecycle_scenario_counterexample :
    (Fmlib.Task.create_new 9 0 [] sampleWorldC3).map
        (fun r => r.1.status.map (fun st => st.status)) =
      .ok (some .unallocated) ∧
    Except.bind (Fmlib.Task.create_new 9 0 [] sampleWorldC3)
        (fun r => Fmlib.Task.assign_robots r.1 [sampleRobotC3] true r.2) =
      .error .indexError :=
  ⟨rfl, rfl⟩

/-- C3 (amended): starting from a task created with status UNALLOCATED and a
single plan stage (the amendment the counterexample forces: with no plan at
all, `assign_robots` raises `IndexError`), on a reachable store:
`assign_robots([r])` yields ALLOCATED with `assigned_robots = [r]`;
`update_plan(tp)` yields PLANNED; `schedule_task(d, s, f)` yields SCHEDULED
with `schedule = (d, s, f)`; and `update_status(FINISHED)` makes the live
lookup fail while the archived lookup returns the task with its status
FINISHED. -/
theorem C3_lifecycle_scenario
    (task_id : Nat) (now d s f : Int) (p0 tp : Fmlib.TaskPlan) (r : String)
    (w0 : Fmlib.World) (hw : w0.available = true) :
    ∃ t1 w1, Fmlib.Task.create_new task_id now [p0] w0 = .ok (t1, w1) ∧
      (∃ st1, t1.status = some st1 ∧ st1.status = .unallocated) ∧
      ∃ t2 w2, Fmlib.Task.assign_robots t1 [r] true w1 = .ok (t2, w2) ∧
        t2.assigned_robots = [r] ∧
        (∃ st2, t2.status = some st2 ∧ st2.status = .allocated) ∧
        ∃ t3 w3, Fmlib.Task.update_plan t2 tp w2 = .ok (t3, w3) ∧
          (∃ st3, t3.status = some st3 ∧ st3.status = .planned) ∧
          ∃ t4 w4, Fmlib.Task.schedule_task t3 d s f w3 = .ok (t4, w4) ∧
            t4.schedule = some ⟨d, s, f⟩ ∧
            (∃ st4, t4.status = some st4 ∧ st4.status = .scheduled) ∧
            ∃ t5 w5, Fmlib.Task.update_status t4 .finished w4 = .ok (t5, w5) ∧
              Fmlib.Task.get_task task_id w5 = .error .doesNotExist ∧
              Fmlib.Task.get_archived_task task_id w5 = .ok t5 ∧
              ∃ st5, t5.status = some st5 ∧ st5.status = .finished := by
  obtain ⟨av, tl, ta, sl, sa, apl, apa, acl, aca⟩ := w0
  change av = true at hw
  subst hw
  refine ⟨_, _, rfl, ⟨_, rfl, rfl⟩, _, _, rfl, rfl, ⟨_, rfl, rfl⟩, _, _, rfl,
    ⟨_, rfl, rfl⟩, _, _, rfl, rfl, ⟨_, rfl, rfl⟩, _, _, rfl, ?_, ?_, ⟨_, rfl, rfl⟩⟩
  · simp [Fmlib.Task.get_task, Fmlib.lookupRec_removeKey_self]
  · simp [Fmlib.Task.get_archived_task, Fmlib.lookupRec_upsert_self]

/-- Witness for C3 at concrete inputs: task 10 created at time 0 with one
empty plan stage, times `(100, 200, 300)`. -/
theorem C3_lifecycle_scenario_witness :
    sampleWorldC3.available = true ∧
    (∃ t1 w1, Fmlib.Task.create_new 10 0 [⟨none, []⟩] sampleWorldC3 = .ok (t1, w1) ∧
      (∃ st1, t1.status = some st1 ∧ st1.status = .unallocated) ∧
      ∃ t2 w2, Fmlib.Task.assign_robots t1 [sampleRobotC3] true w1 = .ok (t2, w2) ∧
        t2.assigned_robots = [sampleRobotC3] ∧
        (∃ st2, t2.status = some st2 ∧ st2.status = .allocated) ∧
        ∃ t3 w3, Fmlib.Task.update_plan t2 ⟨none, [1]⟩ w2 = .ok (t3, w3) ∧
          (∃ st3, t3.status = some st3 ∧ st3.status = .planned) ∧
          ∃ t4 w4, Fmlib.Task.schedule_task t3 100 200 300 w3 = .ok (t4, w4) ∧
            t4.schedule = some ⟨100, 200, 300⟩ ∧
            (∃ st4, t4.status = some st4 ∧ st4.status = .scheduled) ∧
            ∃ t5 w5, Fmlib.Task.update_status t4 .finished w4 = .ok (t5, w5) ∧
              Fmlib.Task.get_task 10 w5 = .error .doesNotExist ∧
              Fmlib.Task.get_archived_task 10 w5 = .ok t5 ∧
              ∃ st5, t5.status = some st5 ∧ st5.status = .finished) :=
  ⟨rfl, C3_lifecycle_scenario 10 0 100 200 300 ⟨none, []⟩ ⟨none, [1]⟩ sampleRobotC3
    sampleWorldC3 rfl⟩

/-- A live task stored in the sample world for C10, with a `RUNNING` status. -/
def sampleTaskC10 : Fmlib.Task :=
  ⟨3, none, none, some ⟨3, .running, false, false, false, none, none⟩, [], [],
    ⟨⟨none, none, none, none, none⟩⟩, none, [], [], none⟩

/-- A sample world with one live task, used to witness C10. -/
def sampleWorldC10 : Fmlib.World := ⟨true, [(3, sampleTaskC10)], [], [], [], [], [], [], []⟩

/-- Witness for C10: with the filter `[FINISHED]`, the running live task is
still returned. -/
theorem C10_get_tasks_by_status_returns_unfiltered_witness :
    (Fmlib.Task.get_tasks_by_status [.finished] sampleWorldC10 =
      (if Fmlib.TaskStatus.archived_status.any
            (fun item => ([.finished] : List Fmlib.TaskStatusConst).contains item)
       then Fmlib.Task.get_all_tasks sampleWorldC10 ++
              Fmlib.Task.get_all_tasks_archived sampleWorldC10
       else Fmlib.Task.get_all_tasks sampleWorldC10) ∧
      ∀ t ∈ Fmlib.Task.get_all_tasks sampleWorldC10,
        t ∈ Fmlib.Task.get_tasks_by_status [.finished] sampleWorldC10) :=
  C10_get_tasks_by_status_returns_unfiltered [.finished] sampleWorldC10
